import Mathlib

/-!
Verification development for the Mafia Discord bot (src/mafia_bot.py,
src/agent.py).  Python dictionaries are embedded as insertion-ordered
association lists with last-write-wins upsert, Python lists as Lean lists,
and `random.choice` as selection by an arbitrary index (uniform when the
index is uniform).  Fallible code (KeyError, list.remove on a missing
element) is embedded with `Option`, `none` standing for a raised exception.
-/

/-- `Role` enum of mafia_bot.py (lines 100-104). -/
inductive Role
  | VILLAGER
  | MAFIA
  | DETECTIVE
  | DOCTOR
deriving DecidableEq, Repr

/-- `GameState` enum of mafia_bot.py (lines 106-112). -/
inductive GameState
  | WAITING
  | IN_PROGRESS
  | DAY
  | NIGHT
  | ENDED
  | VOTING
deriving DecidableEq, Repr

/-- Action kinds stored in `night_actions` records: handlers write
`kill` / `protect` / `investigate`; `handle_action_vote` writes `save`. -/
inductive ActionKind
  | kill
  | protect
  | investigate
  | save
deriving DecidableEq, Repr

/-- The `{'action': ..., 'target': ...}` record stored in `night_actions`. -/
structure ActionRecord where
  action : ActionKind
  target : Nat
deriving DecidableEq, Repr

/-- A Python dict lookup `d[k]` / `d.get(k)` on an insertion-ordered
association list. -/
def dictGet {α : Type} (d : List (Nat × α)) (k : Nat) : Option α :=
  match d with
  | [] => none
  | (ka, v) :: rest => if ka = k then some v else dictGet rest k

/-- A Python dict assignment `d[k] = v`: overwrites the value in place if
the key exists (preserving insertion order), else appends a new entry. -/
def dictSet {α : Type} (d : List (Nat × α)) (k : Nat) (v : α) : List (Nat × α) :=
  match d with
  | [] => [(k, v)]
  | (ka, va) :: rest => if ka = k then (k, v) :: rest else (ka, va) :: dictSet rest k v

/-- One step of `vote_counts[t] = vote_counts.get(t, 0) + 1`. -/
def tallyStep (acc : List (Nat × Nat)) (t : Nat) : List (Nat × Nat) :=
  dictSet acc t ((dictGet acc t).getD 0 + 1)

/-- The vote-count dict built by the tally loops of `process_votes`
(lines 574-576), `start_day` (lines 736-738) and
`process_night_actions` (lines 651-653). -/
def tally (l : List Nat) : List (Nat × Nat) :=
  l.foldl tallyStep []

/-- `max_votes = max(vote_counts.values())` (only ever invoked on a
non-empty dict in the source; the `0` default is never reached there). -/
def maxVotes (counts : List (Nat × Nat)) : Nat :=
  (counts.map Prod.snd).foldl max 0

/-- `[pid for pid, count in vote_counts.items() if count == max_votes]`. -/
def tiedTargets (counts : List (Nat × Nat)) : List Nat :=
  (counts.filter fun p => p.2 = maxVotes counts).map Prod.fst

/-- `random.choice(l)` embedded as selection by an arbitrary index `k`:
for a uniformly distributed `k` the selection is uniform over `l`. -/
def randChoice (l : List Nat) (k : Nat) : Nat :=
  l.getD (k % l.length) 0

theorem dictGet_dictSet_self {α : Type} (d : List (Nat × α)) (k : Nat) (v : α) :
    dictGet (dictSet d k v) k = some v := by
  induction d with
  | nil => simp [dictSet, dictGet]
  | cons hd tl ih =>
    obtain ⟨ka, va⟩ := hd
    by_cases h : ka = k
    · simp [dictSet, dictGet, h]
    · simp [dictSet, dictGet, h, ih]

theorem dictGet_dictSet_ne {α : Type} (d : List (Nat × α)) {k x : Nat} (v : α)
    (h : x ≠ k) : dictGet (dictSet d k v) x = dictGet d x := by
  have h2 : k ≠ x := Ne.symm h
  induction d with
  | nil => simp [dictSet, dictGet, h2]
  | cons hd tl ih =>
    obtain ⟨ka, va⟩ := hd
    by_cases hk : ka = k
    · subst hk
      simp [dictSet, dictGet, h2]
    · simp only [dictSet, if_neg hk, dictGet]
      by_cases hx : ka = x
      · simp [hx]
      · simp [hx, ih]

theorem dictGet_isSome_iff {α : Type} (d : List (Nat × α)) (x : Nat) :
    (dictGet d x).isSome ↔ x ∈ d.map Prod.fst := by
  induction d with
  | nil => simp [dictGet]
  | cons hd tl ih =>
    obtain ⟨ka, va⟩ := hd
    by_cases h : ka = x
    · simp [dictGet, h]
    · simp [dictGet, h, ih, Ne.symm h]

theorem foldl_tallyStep_get (l : List Nat) (acc : List (Nat × Nat)) (x : Nat) :
    dictGet (l.foldl tallyStep acc) x =
      if x ∈ l then some ((dictGet acc x).getD 0 + l.count x)
      else dictGet acc x := by
  induction l generalizing acc with
  | nil => simp
  | cons h t ih =>
    rw [List.foldl_cons, ih]
    by_cases hx : x = h
    · subst hx
      by_cases hmem : x ∈ t
      · simp [hmem, tallyStep, dictGet_dictSet_self, List.count_cons]
        omega
      · simp [hmem, tallyStep, dictGet_dictSet_self, List.count_cons,
          List.count_eq_zero_of_not_mem hmem]
    · have hne : x ≠ h := hx
      by_cases hmem : x ∈ t
      · simp [hmem, hx, tallyStep, dictGet_dictSet_ne _ _ hne, List.count_cons]
      · simp [hmem, hx, tallyStep, dictGet_dictSet_ne _ _ hne]

theorem tally_get_of_mem {l : List Nat} {x : Nat} (h : x ∈ l) :
    dictGet (tally l) x = some (l.count x) := by
  rw [tally, foldl_tallyStep_get, if_pos h]
  simp [dictGet]

theorem tally_get_of_not_mem {l : List Nat} {x : Nat} (h : x ∉ l) :
    dictGet (tally l) x = none := by
  rw [tally, foldl_tallyStep_get, if_neg h]
  simp [dictGet]

theorem mem_of_mem_tally_keys {l : List Nat} {x : Nat}
    (h : x ∈ (tally l).map Prod.fst) : x ∈ l := by
  by_contra hx
  have := tally_get_of_not_mem hx
  rw [← dictGet_isSome_iff] at h
  rw [this] at h
  simp at h

theorem tally_ne_nil {l : List Nat} (h : l ≠ []) : tally l ≠ [] := by
  obtain ⟨a, t, rfl⟩ := List.exists_cons_of_ne_nil h
  intro hnil
  have := tally_get_of_mem (l := a :: t) (x := a) (by simp)
  rw [hnil] at this
  simp [dictGet] at this

theorem le_foldl_max (l : List Nat) (a : Nat) : a ≤ l.foldl max a := by
  induction l generalizing a with
  | nil => simp
  | cons hd tl ih =>
    rw [List.foldl_cons]
    exact le_trans (le_max_left a hd) (ih (max a hd))

theorem foldl_max_le {l : List Nat} {x : Nat} (a : Nat) (h : x ∈ l) :
    x ≤ l.foldl max a := by
  induction l generalizing a with
  | nil => simp at h
  | cons hd tl ih =>
    rw [List.foldl_cons]
    rcases List.mem_cons.mp h with h1 | h1
    · subst h1
      exact le_trans (le_max_right a x) (le_foldl_max tl (max a x))
    · exact ih _ h1

theorem foldl_max_mem (l : List Nat) (a : Nat) : l.foldl max a ∈ a :: l := by
  induction l generalizing a with
  | nil => simp
  | cons hd tl ih =>
    rw [List.foldl_cons]
    have h := ih (max a hd)
    rcases List.mem_cons.mp h with h1 | h1
    · rw [h1]
      rcases max_choice a hd with h2 | h2 <;> rw [h2] <;> simp
    · simp [h1]

theorem foldl_max_zero_mem {l : List Nat} (h : l ≠ []) : l.foldl max 0 ∈ l := by
  rcases List.mem_cons.mp (foldl_max_mem l 0) with h0 | h0
  · obtain ⟨a, t, rfl⟩ := List.exists_cons_of_ne_nil h
    have ha : a ≤ (a :: t).foldl max 0 := foldl_max_le 0 (by simp)
    rw [h0] at ha
    have : a = 0 := Nat.le_zero.mp ha
    rw [h0, ← this]
    simp
  · exact h0

theorem maxVotes_attained {counts : List (Nat × Nat)} (h : counts ≠ []) :
    ∃ p ∈ counts, p.2 = maxVotes counts := by
  have hm : counts.map Prod.snd ≠ [] := by simpa using h
  have := foldl_max_zero_mem hm
  rw [← maxVotes] at this
  obtain ⟨p, hp, hpe⟩ := List.mem_map.mp this
  exact ⟨p, hp, hpe⟩

theorem tiedTargets_ne_nil {counts : List (Nat × Nat)} (h : counts ≠ []) :
    tiedTargets counts ≠ [] := by
  obtain ⟨p, hp, hpe⟩ := maxVotes_attained h
  have : p ∈ counts.filter fun q => q.2 = maxVotes counts := by
    rw [List.mem_filter]
    exact ⟨hp, by simp [hpe]⟩
  intro hnil
  rw [tiedTargets] at hnil
  rw [List.map_eq_nil_iff] at hnil
  rw [hnil] at this
  simp at this

theorem tiedTargets_subset_keys {counts : List (Nat × Nat)} {x : Nat}
    (h : x ∈ tiedTargets counts) : x ∈ counts.map Prod.fst := by
  rw [tiedTargets] at h
  obtain ⟨p, hp, rfl⟩ := List.mem_map.mp h
  exact List.mem_map.mpr ⟨p, (List.mem_filter.mp hp).1, rfl⟩

theorem randChoice_mem {l : List Nat} (h : l ≠ []) (k : Nat) : randChoice l k ∈ l := by
  have hlen : k % l.length < l.length :=
    Nat.mod_lt _ (List.length_pos.mpr h)
  rw [randChoice, List.getD_eq_getElem _ _ hlen]
  exact List.getElem_mem hlen

theorem randChoice_surj {l : List Nat} {t : Nat} (h : t ∈ l) :
    ∃ k, randChoice l k = t := by
  obtain ⟨i, hi, rfl⟩ := List.mem_iff_getElem.mp h
  refine ⟨i, ?_⟩
  rw [randChoice, Nat.mod_eq_of_lt hi, List.getD_eq_getElem _ _ hi]

/-- Cause of the night outcome announced by `end_night` /
`process_night_actions`: a death, a doctor save, or nothing. -/
inductive NightCause
  | killed
  | saved
  | nobody
deriving DecidableEq, Repr

/-- Result state of `end_night`: the updated alive / dead lists and the
announced cause. -/
structure NightResult where
  alive : List Nat
  dead : List Nat
  cause : NightCause
deriving DecidableEq, Repr

/-- Vote resolution of `MafiaGame.process_votes` (mafia_bot.py lines
573-596): tally all collected votes, collect the targets tied at the
maximum count, pick one by `random.choice` (embedded as index `k`), and
move it from `alive_players` to `dead_players` if it is alive.  An empty
vote set leaves the state unchanged. -/
def process_votes (votes : List (Nat × Nat)) (k : Nat)
    (alive dead : List Nat) : List Nat × List Nat :=
  if votes = [] then (alive, dead)
  else
    let vote_counts := tally (votes.map Prod.snd)
    let potential_targets := tiedTargets vote_counts
    let eliminated_id := randChoice potential_targets k
    if eliminated_id ∈ alive then (alive.erase eliminated_id, dead ++ [eliminated_id])
    else (alive, dead)

/-- Vote resolution section of `MafiaGame.start_day` (mafia_bot.py lines
735-764): tally `current_votes`, collect the targets tied at the maximum
count; if exactly one target has the maximum it is moved from alive to
dead (`list.remove` raises if it is absent, embedded as `none`), otherwise
the tie message is sent and nobody is eliminated; an empty vote set also
eliminates nobody. -/
def start_day_vote (votes : List (Nat × Nat)) (alive dead : List Nat) :
    Option (List Nat × List Nat) :=
  if votes = [] then some (alive, dead)
  else
    let vote_counts := tally (votes.map Prod.snd)
    let eliminated := tiedTargets vote_counts
    if eliminated.length = 1 then
      let eliminated_id := eliminated.headD 0
      if eliminated_id ∈ alive then
        some (alive.erase eliminated_id, dead ++ [eliminated_id])
      else none
    else some (alive, dead)

/-- Kill-target selection of `MafiaGame.process_night_actions`
(mafia_bot.py lines 644-662): collect all records of kind `kill`, tally
them by target, collect the targets tied at the maximum count and pick one
by `random.choice` (index `k`); `none` when no kill record exists. -/
def night_kill_target (na : List (Nat × ActionRecord)) (k : Nat) : Option Nat :=
  let mafia_actions := (na.filter fun p => p.2.action = ActionKind.kill).map
    fun p => (p.1, p.2.target)
  if mafia_actions = [] then none
  else
    let vote_counts := tally (mafia_actions.map Prod.snd)
    let potential_targets := tiedTargets vote_counts
    some (randChoice potential_targets k)

/-- `saved_id` of `MafiaGame.process_night_actions` (lines 631-636): the
target of the first record of kind `save`, if any. -/
def night_saved_id (na : List (Nat × ActionRecord)) : Option Nat :=
  ((na.filter fun p => p.2.action = ActionKind.save).map fun p => p.2.target).head?

/-- The comparison `str(target_id) == str(saved_id)` of line 669:
`str(int)` never equals `str(None)`, so it is target equality when a
saved id exists and false otherwise. -/
def savedEq (t : Nat) (s : Option Nat) : Bool :=
  match s with
  | some v => t = v
  | none => false

/-- State effect of `MafiaGame.process_night_actions` (mafia_bot.py lines
604-689) on `alive_players` / `dead_players`, with the announced cause:
no records or no kill records change nothing; a chosen target equal to
`saved_id` is saved; otherwise an alive chosen target is moved from alive
to dead. -/
def process_night_actions (na : List (Nat × ActionRecord)) (k : Nat)
    (alive dead : List Nat) : List Nat × List Nat × NightCause :=
  if na = [] then (alive, dead, NightCause.nobody)
  else
    match night_kill_target na k with
    | none => (alive, dead, NightCause.nobody)
    | some target_id =>
      if savedEq target_id (night_saved_id na) then (alive, dead, NightCause.saved)
      else if target_id ∈ alive then
        (alive.erase target_id, dead ++ [target_id], NightCause.killed)
      else (alive, dead, NightCause.nobody)

/-- The first-match loops of `MafiaGame.end_night` (lines 862-872): scan
`night_actions` in insertion order for the first record whose actor has
role `r` in `player_roles`; the outer `none` embeds the `KeyError` raised
when a scanned actor is missing from `player_roles`. -/
def firstByRole (roles : List (Nat × Role)) (r : Role) :
    List (Nat × ActionRecord) → Option (Option ActionRecord)
  | [] => some none
  | (pid, a) :: rest =>
    match dictGet roles pid with
    | none => none
    | some rr => if rr = r then some (some a) else firstByRole roles r rest

/-- Python truthiness of `killed_player` / `protected_player` (lines
878, 886): `None` and `0` are falsy. -/
def truthy : Option Nat → Bool
  | some t => decide (t ≠ 0)
  | none => false

/-- `MafiaGame.end_night` (mafia_bot.py lines 855-892), the night
resolution actually invoked by `start_night`: the protected target is the
target of the first doctor-role record; the kill is the target of the
first mafia-role record unless it equals the protected target; a truthy
killed target is moved from alive to dead (`list.remove` raising when it
is absent, embedded as `none`), else a truthy protected target yields the
save announcement, else nobody died. -/
def end_night (roles : List (Nat × Role)) (na : List (Nat × ActionRecord))
    (alive dead : List Nat) : Option NightResult := do
  let docRec ← firstByRole roles Role.DOCTOR na
  let protected_player : Option Nat := docRec.map ActionRecord.target
  let mafRec ← firstByRole roles Role.MAFIA na
  let killed_player : Option Nat :=
    match mafRec with
    | some a => if protected_player = some a.target then none else some a.target
    | none => none
  if truthy killed_player then
    match killed_player with
    | some kp =>
      if kp ∈ alive then some ⟨alive.erase kp, dead ++ [kp], NightCause.killed⟩
      else none
    | none => none
  else if truthy protected_player then some ⟨alive, dead, NightCause.saved⟩
  else some ⟨alive, dead, NightCause.nobody⟩

/-- Winner declared by a win-condition check. -/
inductive Winner
  | villageWin
  | mafiaWin
  | noWinner
deriving DecidableEq, Repr

/-- `sum(1 for pid in self.alive_players if self.player_roles[pid] ==
Role.MAFIA)` (lines 965, 1370). -/
def mafiaCount (roles : List (Nat × Role)) (alive : List Nat) : Nat :=
  (alive.filter fun pid => dictGet roles pid = some Role.MAFIA).length

/-- `MafiaGame.check_win_conditions` (mafia_bot.py lines 963-980): the
zero-mafia test comes first, then the mafia-majority test. -/
def check_win_conditions (roles : List (Nat × Role)) (alive : List Nat) : Winner :=
  let mafia_count := mafiaCount roles alive
  let villager_count := alive.length - mafia_count
  if mafia_count = 0 then Winner.villageWin
  else if villager_count ≤ mafia_count then Winner.mafiaWin
  else Winner.noWinner

/-- `MafiaGame.check_game_over` (mafia_bot.py lines 1367-1384): the
mafia-majority test `alive_mafia >= alive_villagers` comes first, then the
zero-mafia test. -/
def check_game_over (roles : List (Nat × Role)) (alive : List Nat) : Winner :=
  let alive_mafia := mafiaCount roles alive
  let alive_villagers := alive.length - alive_mafia
  if alive_villagers ≤ alive_mafia then Winner.mafiaWin
  else if alive_mafia = 0 then Winner.villageWin
  else Winner.noWinner

/-- `MafiaGame.eliminate_player` (mafia_bot.py lines 936-950): removes the
player from `alive_players` but never appends to `dead_players`. -/
def eliminate_player (player_id : Nat) (alive dead : List Nat) :
    List Nat × List Nat :=
  if player_id ∈ alive then (alive.erase player_id, dead)
  else (alive, dead)

/-- Claim C1 counterexample: the claim says every vote resolution with a
non-empty collected vote set eliminates exactly one actor, tie-breaking
multi-way ties at random.  In the day-vote path `start_day` (the vote
resolution reached from `end_night`), a two-way tie with a non-empty vote
set eliminates nobody: voters 1 and 2 vote for 3 and 4 respectively and
the alive and dead lists are returned unchanged. -/
theorem c1_counterexample :
    ([(1, 3), (2, 4)] : List (Nat × Nat)) ≠ [] ∧
    (tiedTargets (tally (([(1, 3), (2, 4)] : List (Nat × Nat)).map Prod.snd))).length = 2 ∧
    start_day_vote [(1, 3), (2, 4)] [1, 2, 3, 4] [] = some ([1, 2, 3, 4], []) := by
  decide

/-- Claim C1 (amended): in the poll path `process_votes` a non-empty vote
set always eliminates exactly one actor, chosen by uniform tie-break among
the targets tied at the maximum count and moved from alive to dead; in the
day path `start_day` a unique maximum target is eliminated but a multi-way
tie eliminates nobody; an empty vote set eliminates nobody in either
path. -/
theorem c1_amended_vote_resolution (votes : List (Nat × Nat)) (k : Nat)
    (alive dead : List Nat) (hne : votes ≠ [])
    (hmem : ∀ t ∈ votes.map Prod.snd, t ∈ alive) :
    (randChoice (tiedTargets (tally (votes.map Prod.snd))) k
        ∈ tiedTargets (tally (votes.map Prod.snd)) ∧
      process_votes votes k alive dead =
        (alive.erase (randChoice (tiedTargets (tally (votes.map Prod.snd))) k),
         dead ++ [randChoice (tiedTargets (tally (votes.map Prod.snd))) k])) ∧
    (∀ e, tiedTargets (tally (votes.map Prod.snd)) = [e] →
      start_day_vote votes alive dead = some (alive.erase e, dead ++ [e])) ∧
    (2 ≤ (tiedTargets (tally (votes.map Prod.snd))).length →
      start_day_vote votes alive dead = some (alive, dead)) ∧
    process_votes [] k alive dead = (alive, dead) ∧
    start_day_vote [] alive dead = some (alive, dead) := by
  have hmapne : votes.map Prod.snd ≠ [] := by simpa using hne
  have htne : tally (votes.map Prod.snd) ≠ [] := tally_ne_nil hmapne
  have htiedne : tiedTargets (tally (votes.map Prod.snd)) ≠ [] :=
    tiedTargets_ne_nil htne
  have hchoice := randChoice_mem htiedne k
  have hchoice_alive : randChoice (tiedTargets (tally (votes.map Prod.snd))) k ∈ alive :=
    hmem _ (mem_of_mem_tally_keys (tiedTargets_subset_keys hchoice))
  refine ⟨⟨hchoice, ?_⟩, ?_, ?_, ?_, ?_⟩
  · simp only [process_votes, if_neg hne]
    rw [if_pos hchoice_alive]
  · intro e he
    have heal : e ∈ alive := by
      refine hmem _ (mem_of_mem_tally_keys (tiedTargets_subset_keys ?_))
      rw [he]; simp
    simp only [start_day_vote, if_neg hne, he, List.length_singleton, if_pos rfl,
      List.headD_cons]
    simp [heal]
  · intro h2
    have hne1 : (tiedTargets (tally (votes.map Prod.snd))).length ≠ 1 := by omega
    simp only [start_day_vote, if_neg hne]
    rw [if_neg hne1]
  · simp [process_votes]
  · simp [start_day_vote]

/-- Claim C1 (amended) witness: two voters both vote for actor 2, who is
eliminated by both vote-resolution paths. -/
theorem c1_amended_witness :
    process_votes [(1, 2), (3, 2)] 0 [1, 2, 3] [] = ([1, 3], [2]) ∧
    start_day_vote [(1, 2), (3, 2)] [1, 2, 3] [] = some ([1, 3], [2]) := by
  have h := c1_amended_vote_resolution [(1, 2), (3, 2)] 0 [1, 2, 3] []
    (by decide) (by decide)
  constructor
  · rw [h.1.2]; decide
  · rw [h.2.1 2 (by decide)]; decide

/-- Claim C2 counterexample: the claim says the night kill target is
determined by tallying all submitted kill records with every record
contributing.  In `end_night` (the night resolution invoked by
`start_night`), with three mafia kill records (actor 1 kills 4, actors 2
and 3 kill 5) the tally has the single maximum target 5, yet actor 4 is
killed: only the first mafia record matters and the other two records
contribute nothing. -/
theorem c2_counterexample :
    end_night
      [(1, Role.MAFIA), (2, Role.MAFIA), (3, Role.MAFIA),
        (4, Role.VILLAGER), (5, Role.VILLAGER)]
      [(1, ActionRecord.mk ActionKind.kill 4), (2, ActionRecord.mk ActionKind.kill 5),
        (3, ActionRecord.mk ActionKind.kill 5)]
      [1, 2, 3, 4, 5] [] = some ⟨[1, 2, 3, 5], [4], NightCause.killed⟩ ∧
    tiedTargets (tally
      (([(1, ActionRecord.mk ActionKind.kill 4), (2, ActionRecord.mk ActionKind.kill 5),
          (3, ActionRecord.mk ActionKind.kill 5)].filter
        fun p => p.2.action = ActionKind.kill).map fun p => p.2.target)) = [5] ∧
    (4 : Nat) ∉ [5] := by
  decide

/-- Claim C2 (amended): in `process_night_actions` the kill target is
determined by tallying all kill-kind records by target (every record
contributes to its target's count), collecting the targets tied at the
maximum and choosing one uniformly at random (each tied target is
reachable); in `end_night`, the night path actually invoked by
`start_night`, the kill target is the target of the first Mafia-role
record in insertion order regardless of any other kill records. -/
theorem c2_amended_kill_tally (na : List (Nat × ActionRecord)) (k : Nat)
    (roles : List (Nat × Role)) (alive dead : List Nat)
    (hk : na.filter (fun p => p.2.action = ActionKind.kill) ≠ []) :
    (∃ t, night_kill_target na k = some t ∧
        t ∈ tiedTargets (tally ((na.filter fun p => p.2.action = ActionKind.kill).map
          fun p => p.2.target))) ∧
    (∀ x ∈ (na.filter fun p => p.2.action = ActionKind.kill).map (fun p => p.2.target),
        dictGet (tally ((na.filter fun p => p.2.action = ActionKind.kill).map
            fun p => p.2.target)) x
          = some (((na.filter fun p => p.2.action = ActionKind.kill).map
            fun p => p.2.target).count x)) ∧
    (∀ u ∈ tiedTargets (tally ((na.filter fun p => p.2.action = ActionKind.kill).map
        fun p => p.2.target)),
        ∃ k2, night_kill_target na k2 = some u) ∧
    (∀ a : ActionRecord, firstByRole roles Role.DOCTOR na = some none →
        firstByRole roles Role.MAFIA na = some (some a) →
        a.target ≠ 0 → a.target ∈ alive →
        end_night roles na alive dead =
          some ⟨alive.erase a.target, dead ++ [a.target], NightCause.killed⟩) := by
  have hmapne : (na.filter fun p => p.2.action = ActionKind.kill).map
      (fun p => (p.1, p.2.target)) ≠ [] := by
    simpa using hk
  have hsnd : ((na.filter fun p => p.2.action = ActionKind.kill).map
      (fun p => (p.1, p.2.target))).map Prod.snd
      = (na.filter fun p => p.2.action = ActionKind.kill).map fun p => p.2.target := by
    simp [List.map_map, Function.comp_def]
  have hkillsne : (na.filter fun p => p.2.action = ActionKind.kill).map
      (fun p => p.2.target) ≠ [] := by
    simpa using hk
  have htiedne : tiedTargets (tally ((na.filter fun p => p.2.action = ActionKind.kill).map
      fun p => p.2.target)) ≠ [] :=
    tiedTargets_ne_nil (tally_ne_nil hkillsne)
  refine ⟨⟨randChoice _ k, ?_, randChoice_mem htiedne k⟩, ?_, ?_, ?_⟩
  · simp only [night_kill_target, if_neg hmapne, hsnd]
  · intro x hx
    exact tally_get_of_mem hx
  · intro u hu
    obtain ⟨k2, hk2⟩ := randChoice_surj hu
    refine ⟨k2, ?_⟩
    simp only [night_kill_target, if_neg hmapne, hsnd, hk2]
  · intro a hdoc hmaf h0 hal
    simp [end_night, hdoc, hmaf, truthy, h0, hal]

/-- Claim C2 (amended) witness: a single kill record by actor 1 targeting
actor 3; the tallied choice and the first-record path agree here, and
`end_night` kills actor 3. -/
theorem c2_amended_witness :
    (∃ t, night_kill_target [(1, ActionRecord.mk ActionKind.kill 3)] 0 = some t ∧
      t ∈ tiedTargets (tally (([(1, ActionRecord.mk ActionKind.kill 3)].filter
        fun p => p.2.action = ActionKind.kill).map fun p => p.2.target))) ∧
    end_night [(1, Role.MAFIA)] [(1, ActionRecord.mk ActionKind.kill 3)] [1, 2, 3] [] =
      some ⟨[1, 2], [3], NightCause.killed⟩ := by
  have h := c2_amended_kill_tally [(1, ActionRecord.mk ActionKind.kill 3)] 0
    [(1, Role.MAFIA)] [1, 2, 3] [] (by decide)
  exact ⟨h.1, h.2.2.2 (ActionRecord.mk ActionKind.kill 3)
    (by decide) (by decide) (by decide) (by decide)⟩

/-- Claim C3: in night resolution, a kill target equal to the protected
target causes no death (cause saved), and a kill targeting Y while the
protect record targets X different from Y moves Y from alive to dead
(cause killed).  Proved for `end_night` (where the doctor-role record
protects X and the first mafia-role record kills) and for
`process_night_actions` (where the chosen kill target is compared with the
save-kind record's target). -/
theorem c3_protect_kill (roles : List (Nat × Role)) (na : List (Nat × ActionRecord))
    (alive dead : List Nat) (X : Nat) (dRec mRec : ActionRecord)
    (hdoc : firstByRole roles Role.DOCTOR na = some (some dRec)) (hX : dRec.target = X)
    (hmaf : firstByRole roles Role.MAFIA na = some (some mRec)) :
    (mRec.target = X → X ≠ 0 →
        end_night roles na alive dead = some ⟨alive, dead, NightCause.saved⟩) ∧
    (mRec.target ≠ X → mRec.target ≠ 0 → mRec.target ∈ alive →
        end_night roles na alive dead =
          some ⟨alive.erase mRec.target, dead ++ [mRec.target], NightCause.killed⟩) ∧
    (∀ k t, night_kill_target na k = some t → night_saved_id na = some X →
        (t = X → process_night_actions na k alive dead = (alive, dead, NightCause.saved)) ∧
        (t ≠ X → t ∈ alive →
          process_night_actions na k alive dead =
            (alive.erase t, dead ++ [t], NightCause.killed))) := by
  refine ⟨?_, ?_, ?_⟩
  · intro hYX h0
    rw [← hX] at hYX h0
    simp [end_night, hdoc, hmaf, truthy, hYX, h0]
  · intro hYX h0 hal
    have hne2 : ¬ dRec.target = mRec.target := by
      rw [hX]; exact fun h => hYX h.symm
    simp [end_night, hdoc, hmaf, truthy, hne2, h0, hal]
  · intro k t hkt hsv
    have hnane : na ≠ [] := by
      intro h
      subst h
      simp [night_kill_target] at hkt
    constructor
    · intro htX
      simp [process_night_actions, hnane, hkt, hsv, savedEq, htX]
    · intro htX hal
      simp [process_night_actions, hnane, hkt, hsv, savedEq, htX, hal]

/-- Claim C3 witness: actor 1 (Mafia) kills 3, actor 2 (Doctor) protects
3: nobody dies and the cause is saved; in the process path the save-kind
record for 3 likewise cancels the chosen kill. -/
theorem c3_protect_kill_witness :
    end_night [(1, Role.MAFIA), (2, Role.DOCTOR), (3, Role.VILLAGER), (4, Role.VILLAGER)]
      [(1, ActionRecord.mk ActionKind.kill 3), (2, ActionRecord.mk ActionKind.protect 3)]
      [1, 2, 3, 4] [] = some ⟨[1, 2, 3, 4], [], NightCause.saved⟩ ∧
    process_night_actions
      [(1, ActionRecord.mk ActionKind.kill 3), (2, ActionRecord.mk ActionKind.save 3)]
      0 [1, 2, 3, 4] [] = ([1, 2, 3, 4], [], NightCause.saved) := by
  constructor
  · exact (c3_protect_kill
      [(1, Role.MAFIA), (2, Role.DOCTOR), (3, Role.VILLAGER), (4, Role.VILLAGER)]
      [(1, ActionRecord.mk ActionKind.kill 3), (2, ActionRecord.mk ActionKind.protect 3)]
      [1, 2, 3, 4] [] 3 (ActionRecord.mk ActionKind.protect 3)
      (ActionRecord.mk ActionKind.kill 3)
      (by decide) rfl (by decide)).1 rfl (by decide)
  · exact ((c3_protect_kill
      [(1, Role.MAFIA), (2, Role.DOCTOR), (3, Role.VILLAGER), (4, Role.VILLAGER)]
      [(1, ActionRecord.mk ActionKind.kill 3), (2, ActionRecord.mk ActionKind.save 3)]
      [1, 2, 3, 4] [] 3 (ActionRecord.mk ActionKind.save 3)
      (ActionRecord.mk ActionKind.kill 3)
      (by decide) rfl (by decide)).2.2 0 3 (by decide) (by decide)).1 rfl

/-- Claim C4 counterexample: the claim says the win-condition evaluation
declares a Village win whenever zero Mafia are alive, including the state
with no actors alive at all.  `check_game_over` tests the mafia-majority
condition first, so in the all-dead state (zero alive Mafia) it declares a
Mafia win. -/
theorem c4_counterexample :
    check_game_over [] [] = Winner.mafiaWin ∧ mafiaCount [] [] = 0 := by
  decide

/-- Claim C4 (amended): `check_win_conditions` declares a Village win
whenever zero Mafia are alive, regardless of the other counts;
`check_game_over` declares a Village win when zero Mafia are alive and at
least one actor is alive, but declares a Mafia win in the state where no
actors at all are alive. -/
theorem c4_amended_win_conditions (roles : List (Nat × Role)) (alive : List Nat) :
    (mafiaCount roles alive = 0 → check_win_conditions roles alive = Winner.villageWin) ∧
    (mafiaCount roles alive = 0 → alive ≠ [] →
      check_game_over roles alive = Winner.villageWin) ∧
    check_game_over roles [] = Winner.mafiaWin := by
  refine ⟨?_, ?_, ?_⟩
  · intro h
    simp [check_win_conditions, h]
  · intro h hne
    have hlen : 0 < alive.length := List.length_pos.mpr hne
    have hgt : ¬ (alive.length - mafiaCount roles alive ≤ mafiaCount roles alive) := by
      omega
    simp [check_game_over, hgt, h, hne]
  · simp [check_game_over, mafiaCount]

/-- Claim C4 (amended) witness: with one alive Villager and no alive
Mafia, both checks declare a Village win. -/
theorem c4_amended_witness :
    check_win_conditions [(1, Role.VILLAGER)] [1] = Winner.villageWin ∧
    check_game_over [(1, Role.VILLAGER)] [1] = Winner.villageWin := by
  have h := c4_amended_win_conditions [(1, Role.VILLAGER)] [1]
  exact ⟨h.1 (by decide), h.2.1 (by decide) (by decide)⟩

/-- Claim C5: the claim says every operation moves eliminated actors from
alive to dead, preserving alive and dead as a partition of the roster.
`eliminate_player` violates this: with roster 1-4 all alive, eliminating
actor 1 removes it from the alive list without appending it to the dead
list, so actor 1 is in neither list and the union invariant is broken. -/
theorem c5_eliminate_player_bug :
    eliminate_player 1 [1, 2, 3, 4] [] = ([2, 3, 4], []) ∧
    (1 : Nat) ∉ ([2, 3, 4] ++ ([] : List Nat)) := by
  decide

/-- Result of `MafiaGame.assign_roles`: the `player_roles` mapping and the
initialized `alive_players` / `dead_players` lists. -/
structure AssignResult where
  player_roles : List (Nat × Role)
  alive_players : List Nat
  dead_players : List Nat
deriving DecidableEq, Repr

/-- `MafiaGame.assign_roles` (mafia_bot.py lines 464-505): raises
(embedded as `Except.error`) when fewer than 4 players; otherwise builds
`max(1, n // 4)` Mafia, one Detective, one Doctor and Villagers for the
remaining slots, shuffles the player ids and the role list independently
(the two `random.shuffle` calls are parameters restricted to permutations
in the theorems), zips them pairwise, and initializes `alive_players` to
the ids and `dead_players` to the empty list. -/
def assign_roles (shuffleIds : List Nat → List Nat)
    (shuffleRoles : List Role → List Role) (ids : List Nat) :
    Except String AssignResult :=
  if ids.length < 4 then Except.error "Not enough players to assign roles"
  else
    let num_players := ids.length
    let num_mafia := max 1 (num_players / 4)
    let roles := List.replicate num_mafia Role.MAFIA ++ [Role.DETECTIVE, Role.DOCTOR]
    let all_roles := roles ++ List.replicate (num_players - roles.length) Role.VILLAGER
    let player_ids := shuffleIds ids
    let shuffled_roles := shuffleRoles all_roles
    Except.ok ⟨player_ids.zip shuffled_roles, player_ids, []⟩

/-- Claim C6: for every roster of at least 4 players, `assign_roles`
covers all players with exactly `max(1, n // 4)` Mafia, one Detective, one
Doctor and Villagers for the rest, initializes the alive list to all
player ids and the dead list to empty; for fewer than 4 players it fails,
aborting game setup. -/
theorem c6_assign_roles (shuffleIds : List Nat → List Nat)
    (shuffleRoles : List Role → List Role)
    (hsi : ∀ l, (shuffleIds l).Perm l) (hsr : ∀ l, (shuffleRoles l).Perm l)
    (ids : List Nat) :
    (ids.length < 4 → assign_roles shuffleIds shuffleRoles ids =
      Except.error "Not enough players to assign roles") ∧
    (4 ≤ ids.length → ∃ r, assign_roles shuffleIds shuffleRoles ids = Except.ok r ∧
      (r.player_roles.map Prod.fst).Perm ids ∧
      r.player_roles.length = ids.length ∧
      (r.player_roles.map Prod.snd).count Role.MAFIA = max 1 (ids.length / 4) ∧
      (r.player_roles.map Prod.snd).count Role.DETECTIVE = 1 ∧
      (r.player_roles.map Prod.snd).count Role.DOCTOR = 1 ∧
      (r.player_roles.map Prod.snd).count Role.VILLAGER
        = ids.length - (max 1 (ids.length / 4) + 2) ∧
      r.alive_players.Perm ids ∧ r.dead_players = []) := by
  constructor
  · intro h
    simp [assign_roles, h]
  · intro h
    have hlt : ¬ ids.length < 4 := by omega
    simp only [assign_roles, if_neg hlt]
    set rolesBase := List.replicate (max 1 (ids.length / 4)) Role.MAFIA
      ++ [Role.DETECTIVE, Role.DOCTOR] with hrb
    set all_roles := rolesBase
      ++ List.replicate (ids.length - rolesBase.length) Role.VILLAGER with hr2
    have hperm_ids := hsi ids
    have hlen_ids : (shuffleIds ids).length = ids.length := hperm_ids.length_eq
    have hperm_roles := hsr all_roles
    have hbase_len : rolesBase.length = max 1 (ids.length / 4) + 2 := by
      rw [hrb]; simp
    have hlen_roles2 : all_roles.length = ids.length := by
      rw [hr2]
      simp only [List.length_append, List.length_replicate, hbase_len]
      omega
    have hlen_sroles : (shuffleRoles all_roles).length = ids.length := by
      rw [hperm_roles.length_eq, hlen_roles2]
    have hfst : ((shuffleIds ids).zip (shuffleRoles all_roles)).map Prod.fst
        = shuffleIds ids :=
      List.map_fst_zip _ _ (by rw [hlen_ids, hlen_sroles])
    have hsnd : ((shuffleIds ids).zip (shuffleRoles all_roles)).map Prod.snd
        = shuffleRoles all_roles :=
      List.map_snd_zip _ _ (by rw [hlen_ids, hlen_sroles])
    have hcnt : ∀ R : Role, (shuffleRoles all_roles).count R = all_roles.count R :=
      fun R => hperm_roles.count_eq R
    refine ⟨_, rfl, ?_, ?_, ?_, ?_, ?_, ?_, hperm_ids, rfl⟩
    · rw [hfst]; exact hperm_ids
    · rw [List.length_zip, hlen_ids, hlen_sroles]
      omega
    · rw [hsnd, hcnt, hr2, hrb]
      simp [List.count_append, List.count_replicate, List.count_cons]
    · rw [hsnd, hcnt, hr2, hrb]
      simp [List.count_append, List.count_replicate, List.count_cons]
    · rw [hsnd, hcnt, hr2, hrb]
      simp [List.count_append, List.count_replicate, List.count_cons]
    · rw [hsnd, hcnt, hr2, hrb, hbase_len]
      simp [List.count_append, List.count_replicate, List.count_cons]

/-- Claim C6 witness: four players with the identity shuffles: one Mafia,
one Detective, one Doctor, one Villager, all four alive, nobody dead. -/
theorem c6_assign_roles_witness :
    ∃ r, assign_roles id id [1, 2, 3, 4] = Except.ok r ∧
      (r.player_roles.map Prod.fst).Perm [1, 2, 3, 4] ∧
      r.player_roles.length = ([1, 2, 3, 4] : List Nat).length ∧
      (r.player_roles.map Prod.snd).count Role.MAFIA
        = max 1 (([1, 2, 3, 4] : List Nat).length / 4) ∧
      (r.player_roles.map Prod.snd).count Role.DETECTIVE = 1 ∧
      (r.player_roles.map Prod.snd).count Role.DOCTOR = 1 ∧
      (r.player_roles.map Prod.snd).count Role.VILLAGER
        = ([1, 2, 3, 4] : List Nat).length
          - (max 1 (([1, 2, 3, 4] : List Nat).length / 4) + 2) ∧
      r.alive_players.Perm [1, 2, 3, 4] ∧ r.dead_players = [] :=
  (c6_assign_roles id id (fun l => List.Perm.refl l) (fun l => List.Perm.refl l)
    [1, 2, 3, 4]).2 (by decide)

/-- The repeated-submission fold over one collection window: each step is
the upsert performed by `handle_kill_command`
(`self.night_actions[ctx.author.id] = ...`, line 1297) and by
`vote_callback` (`game.current_votes[interaction.user.id] = target_id`,
line 277). -/
def submitSeq {α : Type} (d : List (Nat × α)) (actor : Nat) (subs : List α) :
    List (Nat × α) :=
  subs.foldl (fun acc t => dictSet acc actor t) d

theorem dictSet_keys_of_mem {α : Type} {d : List (Nat × α)} {k : Nat} (v : α)
    (h : k ∈ d.map Prod.fst) : (dictSet d k v).map Prod.fst = d.map Prod.fst := by
  induction d with
  | nil => simp at h
  | cons hd tl ih =>
    obtain ⟨ka, va⟩ := hd
    by_cases hk : ka = k
    · subst hk
      simp [dictSet]
    · have hmem : k ∈ tl.map Prod.fst := by
        rcases List.mem_cons.mp h with h1 | h1
        · exact absurd h1.symm hk
        · exact h1
      simp [dictSet, hk, ih hmem]

theorem dictSet_keys_of_not_mem {α : Type} {d : List (Nat × α)} {k : Nat} (v : α)
    (h : k ∉ d.map Prod.fst) :
    (dictSet d k v).map Prod.fst = d.map Prod.fst ++ [k] := by
  induction d with
  | nil => simp [dictSet]
  | cons hd tl ih =>
    obtain ⟨ka, va⟩ := hd
    simp only [List.map_cons, List.mem_cons, not_or] at h
    have hka : ¬ ka = k := fun he => h.1 he.symm
    simp [dictSet, hka, ih h.2]

theorem dictSet_keys_nodup {α : Type} {d : List (Nat × α)} {k : Nat} (v : α)
    (h : (d.map Prod.fst).Nodup) : ((dictSet d k v).map Prod.fst).Nodup := by
  by_cases hm : k ∈ d.map Prod.fst
  · rw [dictSet_keys_of_mem v hm]
    exact h
  · rw [dictSet_keys_of_not_mem v hm]
    simp [List.nodup_append, h, hm]

theorem countKey_dictSet_self {α : Type} {d : List (Nat × α)} {k : Nat} (v : α)
    (h : (d.map Prod.fst).Nodup) :
    ((dictSet d k v).map Prod.fst).count k = 1 := by
  by_cases hm : k ∈ d.map Prod.fst
  · rw [dictSet_keys_of_mem v hm]
    exact List.count_eq_one_of_mem h hm
  · rw [dictSet_keys_of_not_mem v hm, List.count_append,
      List.count_eq_zero_of_not_mem hm]
    simp

/-- Claim C7: for every sequence of submissions by the same actor within a
single collection window, exactly one record for that actor is retained
and it is the last one submitted; records of other actors are untouched.
Each submission is the dict upsert of `handle_kill_command` /
`vote_callback`. -/
theorem c7_last_write_wins {α : Type} (d : List (Nat × α)) (actor : Nat)
    (subs : List α) (hnodup : (d.map Prod.fst).Nodup) (hne : subs ≠ []) :
    dictGet (submitSeq d actor subs) actor = subs.getLast? ∧
    ((submitSeq d actor subs).map Prod.fst).count actor = 1 ∧
    ∀ x, x ≠ actor → dictGet (submitSeq d actor subs) x = dictGet d x := by
  induction subs generalizing d with
  | nil => exact absurd rfl hne
  | cons v rest ih =>
    cases rest with
    | nil =>
      refine ⟨?_, ?_, ?_⟩
      · simp [submitSeq, dictGet_dictSet_self]
      · simp only [submitSeq, List.foldl_cons, List.foldl_nil]
        exact countKey_dictSet_self v hnodup
      · intro x hx
        simp only [submitSeq, List.foldl_cons, List.foldl_nil]
        exact dictGet_dictSet_ne d v hx
    | cons w rest2 =>
      have hstep : submitSeq d actor (v :: w :: rest2)
          = submitSeq (dictSet d actor v) actor (w :: rest2) := by
        simp [submitSeq]
      have hnd2 : ((dictSet d actor v).map Prod.fst).Nodup :=
        dictSet_keys_nodup v hnodup
      have ihh := ih (dictSet d actor v) hnd2 (by simp)
      refine ⟨?_, ?_, ?_⟩
      · rw [hstep, ihh.1, List.getLast?_cons_cons]
      · rw [hstep]
        exact ihh.2.1
      · intro x hx
        rw [hstep, ihh.2.2 x hx]
        exact dictGet_dictSet_ne d v hx

/-- Claim C7 witness: actor 1 submits 2 then 3 into an empty window; one
record survives and its value is 3. -/
theorem c7_last_write_wins_witness :
    dictGet (submitSeq ([] : List (Nat × Nat)) 1 [2, 3]) 1 = some 3 ∧
    ((submitSeq ([] : List (Nat × Nat)) 1 [2, 3]).map Prod.fst).count 1 = 1 := by
  have h := c7_last_write_wins ([] : List (Nat × Nat)) 1 [2, 3] (by simp) (by simp)
  exact ⟨by rw [h.1]; rfl, h.2.1⟩

/-- The slice of `MafiaGame` state read and written by the night command
handlers (mafia_bot.py lines 1269-1365): channels are embedded as opaque
numeric identifiers. -/
structure GState where
  state : GameState
  players : List (Nat × String)
  player_roles : List (Nat × Role)
  alive_players : List Nat
  dead_players : List Nat
  night_actions : List (Nat × ActionRecord)
  current_votes : List (Nat × Nat)
  mafia_channel : Nat
  doctor_channel : Nat
  detective_channel : Nat
deriving DecidableEq, Repr

/-- The `ctx.author.id` / `ctx.channel` pair of a command invocation. -/
structure Ctx where
  author : Nat
  channel : Nat
deriving DecidableEq, Repr

/-- The `.lower()` normalization used by the handlers' display-name
comparison, computed characterwise on the string's character list. -/
def strLower (s : String) : String :=
  String.mk (s.data.map Char.toLower)

/-- The target-name lookup loop shared by the three handlers (lines
1284-1288, 1317-1321, 1347-1351): the first alive player whose lowercased
display name equals the lowercased argument. -/
def find_target (g : GState) (target_name : String) : Option Nat :=
  g.alive_players.find? fun pid =>
    (dictGet g.players pid).map strLower = some (strLower target_name)

/-- `MafiaGame.handle_kill_command` (mafia_bot.py lines 1269-1301) as a
function from state and invocation to the reply sent and the resulting
state; `none` embeds the `KeyError` on a role lookup for an actor missing
from `player_roles`. -/
def handle_kill_command (g : GState) (ctx : Ctx) (target_name : String) :
    Option (String × GState) :=
  if g.state ≠ GameState.NIGHT then
    some ("You can only kill during the night phase!", g)
  else if ctx.author ∉ g.alive_players then
    some ("Dead players cannot perform actions!", g)
  else
    match dictGet g.player_roles ctx.author with
    | none => none
    | some r =>
      if r ≠ Role.MAFIA then
        some ("Only mafia members can use this command!", g)
      else if ctx.channel ≠ g.mafia_channel then
        some ("This command can only be used in the mafia channel!", g)
      else
        match find_target g target_name with
        | none => some ("Could not find player: " ++ target_name, g)
        | some target_id =>
          if target_id = ctx.author then
            some ("You cannot target yourself!", g)
          else
            some ("You have chosen to kill " ++ target_name,
              { g with night_actions :=
                  dictSet g.night_actions ctx.author (ActionRecord.mk ActionKind.kill target_id) })

/-- `MafiaGame.handle_protect_command` (mafia_bot.py lines 1303-1331):
identical guard structure, but with no self-targeting check. -/
def handle_protect_command (g : GState) (ctx : Ctx) (target_name : String) :
    Option (String × GState) :=
  if g.state ≠ GameState.NIGHT then
    some ("You can only protect during the night phase!", g)
  else if ctx.author ∉ g.alive_players then
    some ("Dead players cannot perform actions!", g)
  else
    match dictGet g.player_roles ctx.author with
    | none => none
    | some r =>
      if r ≠ Role.DOCTOR then
        some ("Only the doctor can use this command!", g)
      else if ctx.channel ≠ g.doctor_channel then
        some ("This command can only be used in the doctor channel!", g)
      else
        match find_target g target_name with
        | none => some ("Could not find player: " ++ target_name, g)
        | some target_id =>
          some ("You have chosen to protect " ++ target_name,
            { g with night_actions :=
                dictSet g.night_actions ctx.author (ActionRecord.mk ActionKind.protect target_id) })

/-- `MafiaGame.handle_investigate_command` (mafia_bot.py lines
1333-1365). -/
def handle_investigate_command (g : GState) (ctx : Ctx) (target_name : String) :
    Option (String × GState) :=
  if g.state ≠ GameState.NIGHT then
    some ("You can only investigate during the night phase!", g)
  else if ctx.author ∉ g.alive_players then
    some ("Dead players cannot perform actions!", g)
  else
    match dictGet g.player_roles ctx.author with
    | none => none
    | some r =>
      if r ≠ Role.DETECTIVE then
        some ("Only the detective can use this command!", g)
      else if ctx.channel ≠ g.detective_channel then
        some ("This command can only be used in the detective channel!", g)
      else
        match find_target g target_name with
        | none => some ("Could not find player: " ++ target_name, g)
        | some target_id =>
          if target_id = ctx.author then
            some ("You cannot investigate yourself!", g)
          else
            some ("You have chosen to investigate " ++ target_name,
              { g with night_actions :=
                  dictSet g.night_actions ctx.author (ActionRecord.mk ActionKind.investigate target_id) })

/-- Claim C8: every rejected submission (wrong phase, dead submitter,
wrong role, unknown target, disallowed self-targeting) is answered with
an explicit reason string and returns the game state completely
unchanged, shown for `handle_kill_command` and
`handle_investigate_command`. -/
theorem c8_rejections_unchanged (g : GState) (ctx : Ctx) (target_name : String) :
    (g.state ≠ GameState.NIGHT →
      handle_kill_command g ctx target_name =
        some ("You can only kill during the night phase!", g)) ∧
    (g.state = GameState.NIGHT → ctx.author ∉ g.alive_players →
      handle_kill_command g ctx target_name =
        some ("Dead players cannot perform actions!", g)) ∧
    (∀ r, g.state = GameState.NIGHT → ctx.author ∈ g.alive_players →
      dictGet g.player_roles ctx.author = some r → r ≠ Role.MAFIA →
      handle_kill_command g ctx target_name =
        some ("Only mafia members can use this command!", g)) ∧
    (g.state = GameState.NIGHT → ctx.author ∈ g.alive_players →
      dictGet g.player_roles ctx.author = some Role.MAFIA →
      ctx.channel = g.mafia_channel → find_target g target_name = none →
      handle_kill_command g ctx target_name =
        some ("Could not find player: " ++ target_name, g)) ∧
    (g.state = GameState.NIGHT → ctx.author ∈ g.alive_players →
      dictGet g.player_roles ctx.author = some Role.MAFIA →
      ctx.channel = g.mafia_channel → find_target g target_name = some ctx.author →
      handle_kill_command g ctx target_name =
        some ("You cannot target yourself!", g)) ∧
    (g.state ≠ GameState.NIGHT →
      handle_investigate_command g ctx target_name =
        some ("You can only investigate during the night phase!", g)) ∧
    (g.state = GameState.NIGHT → ctx.author ∉ g.alive_players →
      handle_investigate_command g ctx target_name =
        some ("Dead players cannot perform actions!", g)) ∧
    (∀ r, g.state = GameState.NIGHT → ctx.author ∈ g.alive_players →
      dictGet g.player_roles ctx.author = some r → r ≠ Role.DETECTIVE →
      handle_investigate_command g ctx target_name =
        some ("Only the detective can use this command!", g)) ∧
    (g.state = GameState.NIGHT → ctx.author ∈ g.alive_players →
      dictGet g.player_roles ctx.author = some Role.DETECTIVE →
      ctx.channel = g.detective_channel → find_target g target_name = none →
      handle_investigate_command g ctx target_name =
        some ("Could not find player: " ++ target_name, g)) ∧
    (g.state = GameState.NIGHT → ctx.author ∈ g.alive_players →
      dictGet g.player_roles ctx.author = some Role.DETECTIVE →
      ctx.channel = g.detective_channel → find_target g target_name = some ctx.author →
      handle_investigate_command g ctx target_name =
        some ("You cannot investigate yourself!", g)) := by
  refine ⟨?_, ?_, ?_, ?_, ?_, ?_, ?_, ?_, ?_, ?_⟩
  · intro h
    simp [handle_kill_command, h]
  · intro h1 h2
    simp [handle_kill_command, h1, h2]
  · intro r h1 h2 h3 h4
    simp [handle_kill_command, h1, h2, h3, h4]
  · intro h1 h2 h3 h4 h5
    simp [handle_kill_command, h1, h2, h3, h4, h5]
  · intro h1 h2 h3 h4 h5
    simp [handle_kill_command, h1, h2, h3, h4, h5]
  · intro h
    simp [handle_investigate_command, h]
  · intro h1 h2
    simp [handle_investigate_command, h1, h2]
  · intro r h1 h2 h3 h4
    simp [handle_investigate_command, h1, h2, h3, h4]
  · intro h1 h2 h3 h4 h5
    simp [handle_investigate_command, h1, h2, h3, h4, h5]
  · intro h1 h2 h3 h4 h5
    simp [handle_investigate_command, h1, h2, h3, h4, h5]

/-- Claim C8 witness: a kill command issued during the day phase is
rejected with the phase reason and the state is returned unchanged. -/
theorem c8_rejections_witness :
    handle_kill_command
      (GState.mk GameState.DAY [(1, "alice"), (2, "bob")]
        [(1, Role.MAFIA), (2, Role.VILLAGER)] [1, 2] [] [] [] 10 11 12)
      (Ctx.mk 1 10) "bob" =
      some ("You can only kill during the night phase!",
        GState.mk GameState.DAY [(1, "alice"), (2, "bob")]
          [(1, Role.MAFIA), (2, Role.VILLAGER)] [1, 2] [] [] [] 10 11 12) :=
  (c8_rejections_unchanged
    (GState.mk GameState.DAY [(1, "alice"), (2, "bob")]
      [(1, Role.MAFIA), (2, Role.VILLAGER)] [1, 2] [] [] [] 10 11 12)
    (Ctx.mk 1 10) "bob").1 (by decide)

/-- Claim C10: during the night phase, a protect submission by the alive
Doctor that resolves to the Doctor's own id is accepted and recorded in
`night_actions` (self-protection is not rejected), while the kill and
investigate paths reject the analogous self-targeting submission with an
error and record nothing. -/
theorem c10_self_target (g : GState) (ctx : Ctx) (target_name : String)
    (hphase : g.state = GameState.NIGHT) (halive : ctx.author ∈ g.alive_players)
    (hfind : find_target g target_name = some ctx.author) :
    (dictGet g.player_roles ctx.author = some Role.DOCTOR →
      ctx.channel = g.doctor_channel →
      handle_protect_command g ctx target_name =
        some ("You have chosen to protect " ++ target_name,
          { g with night_actions :=
              dictSet g.night_actions ctx.author (ActionRecord.mk ActionKind.protect ctx.author) })) ∧
    (dictGet g.player_roles ctx.author = some Role.MAFIA →
      ctx.channel = g.mafia_channel →
      handle_kill_command g ctx target_name =
        some ("You cannot target yourself!", g)) ∧
    (dictGet g.player_roles ctx.author = some Role.DETECTIVE →
      ctx.channel = g.detective_channel →
      handle_investigate_command g ctx target_name =
        some ("You cannot investigate yourself!", g)) := by
  refine ⟨?_, ?_, ?_⟩
  · intro h1 h2
    simp [handle_protect_command, hphase, halive, hfind, h1, h2]
  · intro h1 h2
    simp [handle_kill_command, hphase, halive, hfind, h1, h2]
  · intro h1 h2
    simp [handle_investigate_command, hphase, halive, hfind, h1, h2]

/-- Claim C10 witness: the alive Doctor (actor 1, display name doc)
protects themself by name and the protect record targeting actor 1 is
stored. -/
theorem c10_self_target_witness :
    handle_protect_command
      (GState.mk GameState.NIGHT [(1, "doc"), (2, "bob")]
        [(1, Role.DOCTOR), (2, Role.VILLAGER)] [1, 2] [] [] [] 10 11 12)
      (Ctx.mk 1 11) "doc" =
      some ("You have chosen to protect doc",
        GState.mk GameState.NIGHT [(1, "doc"), (2, "bob")]
          [(1, Role.DOCTOR), (2, Role.VILLAGER)] [1, 2] []
          [(1, ActionRecord.mk ActionKind.protect 1)] [] 10 11 12) :=
  (c10_self_target
    (GState.mk GameState.NIGHT [(1, "doc"), (2, "bob")]
      [(1, Role.DOCTOR), (2, Role.VILLAGER)] [1, 2] [] [] [] 10 11 12)
    (Ctx.mk 1 11) "doc" rfl (by decide) (by decide)).1 rfl rfl

/-- A narrative-oracle API outcome: a successful response body (as a
character list) or a failure (non-200 status or a raised exception). -/
inductive ApiResp
  | ok (s : List Char)
  | err
deriving DecidableEq, Repr

/-- The fixed fallback string returned by `GrokAgent.run` (lines 65, 68)
and `StoryTeller.generate_story` (lines 82, 98) on any internal
failure. -/
def fallbackMsg : List Char :=
  "The village continues its story...".toList

/-- `GrokAgent.run` (mafia_bot.py lines 34-68): its try/except wraps the
whole request, so it returns the response content on success and the
fixed fallback string on any failure; it never raises. -/
def grokRun : ApiResp → List Char
  | ApiResp.ok s => s
  | ApiResp.err => fallbackMsg

/-- `StoryTeller.generate_story` (mafia_bot.py lines 74-98) over the up to
two `agent.run` calls it makes (`r1` first attempt, `r2` shortening
attempt): an empty first response yields the fallback; a first response
longer than `max_length` triggers one shortening regeneration, whose
result is hard-truncated to `max_length` characters when it is empty or
still too long; the surrounding try/except returns the fallback on any
internal failure. -/
def generate_story (r1 r2 : ApiResp) (max_length : Nat) : List Char :=
  let response := grokRun r1
  if response = [] then fallbackMsg
  else if max_length < response.length then
    let response2 := grokRun r2
    if response2 = [] ∨ max_length < response2.length then response2.take max_length
    else response2
  else response

/-- Claim C9: story generation never raises (the embedding is total and
every failure branch produces a value): an internal failure of the first
call yields the fixed fallback string (whenever the fallback itself fits
in `max_length`, as it does for the 1900-character production limit) and
so does an empty response; a first response exceeding `max_length`
triggers exactly one shortening regeneration — the result then never
exceeds `max_length`, by hard truncation when the regenerated text is
empty or still too long — and no regeneration is consulted otherwise. -/
theorem c9_generate_story (r1 r2 : ApiResp) (max_length : Nat) :
    (fallbackMsg.length ≤ max_length →
      generate_story ApiResp.err r2 max_length = fallbackMsg) ∧
    (generate_story (ApiResp.ok []) r2 max_length = fallbackMsg) ∧
    (max_length < (grokRun r1).length →
      generate_story r1 r2 max_length =
        (if grokRun r2 = [] ∨ max_length < (grokRun r2).length
         then (grokRun r2).take max_length else grokRun r2) ∧
      (generate_story r1 r2 max_length).length ≤ max_length) ∧
    (¬ max_length < (grokRun r1).length → ∀ r2a : ApiResp,
      generate_story r1 r2 max_length = generate_story r1 r2a max_length) := by
  refine ⟨?_, ?_, ?_, ?_⟩
  · intro h
    have hne : fallbackMsg ≠ [] := by decide
    have hnl : ¬ max_length < fallbackMsg.length := by omega
    simp [generate_story, grokRun, hne, hnl]
  · simp [generate_story, grokRun]
  · intro h
    have hne : grokRun r1 ≠ [] := by
      intro he
      rw [he] at h
      simp at h
    constructor
    · simp [generate_story, hne, h]
    · by_cases hc : grokRun r2 = [] ∨ max_length < (grokRun r2).length
      · simp [generate_story, hne, h, hc]
      · push_neg at hc
        obtain ⟨hc1, hc2⟩ := hc
        have hc3 : ¬ max_length < (grokRun r2).length := by omega
        simp [generate_story, hne, h, hc1, hc3]
        omega
  · intro h r2a
    by_cases hne : grokRun r1 = []
    · simp [generate_story, hne]
    · simp [generate_story, hne, h]

/-- Claim C9 witness: a failed first oracle call with the production
1900-character limit returns the fixed fallback string. -/
theorem c9_generate_story_witness :
    generate_story ApiResp.err (ApiResp.ok []) 1900 = fallbackMsg ∧
    fallbackMsg.length ≤ 1900 := by
  have h := c9_generate_story ApiResp.err (ApiResp.ok []) 1900
  exact ⟨h.1 (by decide), by decide⟩
